import Mathlib

/-!
Shallow embedding of the multi-round workflow core of the
`etsy-stream-pack-helper` repository: the rubric evaluation module
(`multi_agent/rubric.py`), the workflow state machine
(`multi_agent/state.py`), the PM stopping-condition dispatcher
(`agents/pm.py`), the critic fallback path (`agents/critic.py`) and the
orchestrator driver loop (`multi_agent/orchestrator.py`).

Modelling conventions:
* Python floats are modelled as exact rationals (the control flow under
  study only compares and averages them).
* Python string interpolation of numbers is modelled by `natStr` /
  `pyFloatRepr`, which render decimal digits (plus '.', '-'); only the
  character set matters to the substring dispatch in `pm.py`.
* Filesystem contents are modelled by explicit structures (`PackDir`)
  recording exactly the observations the validators make.
* Exceptions that a function propagates are modelled with `Option`.
-/

namespace StreamPack

/-- Decimal digit character for `n % 10`. -/
def digitChar (n : ℕ) : Char := Char.ofNat (48 + n % 10)

/-- Fuelled decimal rendering of a natural number (models CPython
`str(int)`); fuel `n + 1` always suffices, and structural recursion on the
fuel keeps the definition kernel-computable. -/
def natDigitsAux : ℕ → ℕ → List Char
  | 0, _ => []
  | fuel + 1, n =>
      if n < 10 then [digitChar n]
      else natDigitsAux fuel (n / 10) ++ [digitChar (n % 10)]

/-- Decimal rendering of a natural number, models CPython `str(int)`. -/
def natStr (n : ℕ) : String := ⟨natDigitsAux (n + 1) n⟩

/-- Models CPython rendering of a float (`str` or a format specifier such
as `:.1f`): the digits themselves never influence the control flow under
study, only the character set (decimal digits, '.', '-') does, so we
render the exact rational via sign, numerator and denominator using
exactly those characters. -/
def pyFloatRepr (q : ℚ) : String :=
  (if q < 0 then "-" else "") ++ natStr q.num.natAbs ++ "." ++ natStr q.den

/-- Python `pat in s` (substring containment on strings). -/
def pyIn (pat s : String) : Bool := decide (pat.data <:+: s.data)

/-- Python `s.lower()`. -/
def pyLower (s : String) : String := ⟨s.data.map Char.toLower⟩

/-- Embeds `rubric.EvaluationScore`: individual dimension score with
justification. -/
structure EvaluationScore where
  dimension : String
  score : ℚ
  weight : ℚ
  justification : String
  issues : List String
deriving DecidableEq

/-- Embeds `rubric.PackEvaluation`: complete evaluation of a stream pack. -/
structure PackEvaluation where
  pack_name : String
  overall_score : ℚ
  dimension_scores : List EvaluationScore
  critical_issues : List String
  selected_images : List (String × String)
  deltas : List String
  automated_checks_passed : Bool
deriving DecidableEq

/-- Embeds `PackEvaluation.passes_threshold`: `self.overall_score >= 8.5 and not
self.critical_issues` — note the hardcoded `8.5` in the source. -/
def PackEvaluation.passes_threshold (e : PackEvaluation) : Bool :=
  decide (e.overall_score ≥ 8.5) && e.critical_issues.isEmpty

/-- Embeds `rubric.calculate_overall_score`: weighted average of dimension
scores; `0.0` for an empty list or a zero total weight. -/
def calculate_overall_score (dimension_scores : List EvaluationScore) : ℚ :=
  if dimension_scores.isEmpty then 0
  else
    let total_weight := (dimension_scores.map (fun s => s.weight)).sum
    if total_weight = 0 then 0
    else (dimension_scores.map (fun s => s.score * s.weight)).sum / total_weight

/-- Embeds `state.RoundState`: state for a single evaluation round. -/
structure RoundState where
  round_num : ℕ
  timestamp : String
  prompts_used : List (String × String)
  evaluation : Option PackEvaluation
  variants_generated : ℕ
  cost_usd : ℚ
deriving DecidableEq

/-- Embeds `state.WorkflowState`: complete state for the multi-round workflow. -/
structure WorkflowState where
  pack_name : String
  started_at : String
  max_rounds : ℕ
  quality_threshold : ℚ
  rounds : List RoundState
  completed : Bool
  completion_reason : String
deriving DecidableEq

/-- Embeds `WorkflowState.current_round` property: `len(self.rounds) + 1`. -/
def WorkflowState.current_round (st : WorkflowState) : ℕ := st.rounds.length + 1

/-- Embeds `WorkflowState.latest_evaluation` property: `None` when no rounds,
else the last round's evaluation. -/
def WorkflowState.latest_evaluation (st : WorkflowState) : Option PackEvaluation :=
  match st.rounds.getLast? with
  | none => none
  | some r => r.evaluation

/-- Embeds `WorkflowState.latest_score` property: the latest evaluation's
`overall_score`, if any. -/
def WorkflowState.latest_score (st : WorkflowState) : Option ℚ :=
  (st.latest_evaluation).map (fun e => e.overall_score)

/-- Embeds `WorkflowState.should_continue`: decide whether the workflow should
run another round, with a human-readable reason string.  Branch order as
in the source: no evaluation yet / critical issues (blocker) / quality
threshold / max rounds / continue. -/
def WorkflowState.should_continue (st : WorkflowState) : Bool × String :=
  match st.latest_evaluation with
  | none => (true, "No evaluation yet")
  | some ev =>
    if ¬ ev.critical_issues.isEmpty then
      (false, "BLOCKED by " ++ natStr ev.critical_issues.length ++ " critical issue(s)")
    else if ev.passes_threshold then
      (false, "PASS - Score " ++ pyFloatRepr ev.overall_score ++ " ≥ threshold "
        ++ pyFloatRepr st.quality_threshold)
    else if st.current_round > st.max_rounds then
      (false, "Max rounds (" ++ natStr st.max_rounds ++ ") reached")
    else
      (true, "Score " ++ pyFloatRepr ev.overall_score ++ " < threshold "
        ++ pyFloatRepr st.quality_threshold)

/-- Embeds `WorkflowState.add_round`: append a completed round. -/
def WorkflowState.add_round (st : WorkflowState) (r : RoundState) : WorkflowState :=
  { st with rounds := st.rounds ++ [r] }

/-- Embeds `WorkflowState.finalize`: mark the workflow as completed. -/
def WorkflowState.finalize (st : WorkflowState) (reason : String) : WorkflowState :=
  { st with completed := true, completion_reason := reason }

/-- Embeds `WorkflowState.create_new`: fresh state with an empty round list
(the wall-clock start timestamp is passed in). -/
def WorkflowState.create_new (pack_name : String) (started_at : String)
    (max_rounds : ℕ) (quality_threshold : ℚ) : WorkflowState :=
  { pack_name := pack_name
    started_at := started_at
    max_rounds := max_rounds
    quality_threshold := quality_threshold
    rounds := []
    completed := false
    completion_reason := "" }

/-- Embeds `pm.check_stopping_conditions`: returns `(should_stop, decision,
reason)`.  The decision label is recovered from the reason string by the
same substring tests as the source (`"BLOCKED" in reason`, `"PASS" in
reason or "threshold" in reason.lower()`); the final branch models the
Python truthiness test `if latest_score and latest_score >= threshold`
(both `None` and `0.0` are falsy). -/
def check_stopping_conditions (st : WorkflowState) : Bool × String × String :=
  let sc := st.should_continue
  if sc.1 then (false, "CONTINUE", sc.2)
  else
    if pyIn "BLOCKED" sc.2 then (true, "BLOCKED", sc.2)
    else if pyIn "PASS" sc.2 || pyIn "threshold" (pyLower sc.2) then (true, "PASS", sc.2)
    else
      let truthy := match st.latest_score with
        | none => false
        | some s => decide (s ≠ 0) && decide (s ≥ st.quality_threshold)
      let s0 := (st.latest_score).getD 0
      if truthy then
        (true, "PASS", "Max rounds reached, but quality acceptable ("
          ++ pyFloatRepr s0 ++ "/10)")
      else
        (true, "CONTINUE", "Max rounds reached with score " ++ pyFloatRepr s0 ++ "/10")

/-! ### Character-set facts about rendered numbers

The decision dispatch in `pm.check_stopping_conditions` recovers the
decision label from the reason string by substring tests, so we need to
know that rendered numbers contribute only digits, '.' and '-'. -/

lemma digitChar_mem (n : ℕ) : digitChar n ∈ "0123456789".data := by
  unfold digitChar
  have h : n % 10 < 10 := Nat.mod_lt _ (by norm_num)
  set m := n % 10 with hm
  interval_cases m <;> decide

lemma natDigitsAux_subset (fuel : ℕ) : ∀ n, ∀ c ∈ natDigitsAux fuel n, c ∈ "0123456789".data := by
  induction fuel with
  | zero => intro n c hc; simp [natDigitsAux] at hc
  | succ fuel ih =>
    intro n c hc
    unfold natDigitsAux at hc
    by_cases hn : n < 10
    · simp [hn] at hc
      simpa [hc] using digitChar_mem n
    · simp [hn, List.mem_append] at hc
      rcases hc with hc | hc
      · exact ih _ c hc
      · simpa [hc] using digitChar_mem (n % 10)

lemma natStr_subset (n : ℕ) : ∀ c ∈ (natStr n).data, c ∈ "0123456789".data :=
  natDigitsAux_subset (n + 1) n

lemma mem_floatChars_of_digit {c : Char} (h : c ∈ "0123456789".data) :
    c ∈ "0123456789.-".data := by
  fin_cases h <;> decide

lemma pyFloatRepr_subset (q : ℚ) : ∀ c ∈ (pyFloatRepr q).data, c ∈ "0123456789.-".data := by
  intro c hc
  unfold pyFloatRepr at hc
  rw [String.data_append, String.data_append, String.data_append] at hc
  simp only [List.mem_append] at hc
  rcases hc with ((hc | hc) | hc) | hc
  · by_cases hq : q < 0
    · have hcm : c = '-' := by simpa [hq] using hc
      rw [hcm]; decide
    · simp [hq] at hc
  · exact mem_floatChars_of_digit (natStr_subset _ c hc)
  · simp at hc; simp [hc]
  · exact mem_floatChars_of_digit (natStr_subset _ c hc)

/-! ### Substring-test helpers for the decision dispatch -/

lemma pyIn_true_of_pre (pat s : String) (h : pat.data <+: s.data) : pyIn pat s = true := by
  obtain ⟨t, ht⟩ := h
  unfold pyIn
  apply decide_eq_true
  exact ⟨[], t, by simp [ht]⟩

lemma pyIn_false_of_char (c : Char) (pat s : String) (hc : c ∈ pat.data)
    (hs : c ∉ s.data) : pyIn pat s = false := by
  unfold pyIn
  apply decide_eq_false
  rintro ⟨u, v, huv⟩
  apply hs
  rw [← huv]
  simp only [List.mem_append]
  exact Or.inl (Or.inr hc)

lemma digits_toLower : ∀ c ∈ "0123456789".data, Char.toLower c = c := by decide

/-- The reason string emitted by the critical-issue branch always passes
the `"BLOCKED" in reason` test. -/
lemma pyIn_blocked_reason (k : ℕ) :
    pyIn "BLOCKED" ("BLOCKED by " ++ natStr k ++ " critical issue(s)") = true := by
  apply pyIn_true_of_pre
  rw [String.data_append, String.data_append]
  have h1 : "BLOCKED".data <+: "BLOCKED by ".data := by decide
  exact h1.trans ((List.prefix_append _ _).trans (List.prefix_append _ _))

lemma not_mem_pass_reason_of_not_float (c : Char) (x t : ℚ)
    (h1 : c ∉ "PASS - Score ".data) (h2 : c ∉ " ≥ threshold ".data)
    (h3 : c ∉ "0123456789.-".data) :
    c ∉ ("PASS - Score " ++ pyFloatRepr x ++ " ≥ threshold " ++ pyFloatRepr t).data := by
  rw [String.data_append, String.data_append, String.data_append]
  simp only [List.mem_append]
  rintro (((hc | hc) | hc) | hc)
  · exact h1 hc
  · exact h3 (pyFloatRepr_subset x c hc)
  · exact h2 hc
  · exact h3 (pyFloatRepr_subset t c hc)

lemma pyIn_pass_reason_blocked (x t : ℚ) :
    pyIn "BLOCKED" ("PASS - Score " ++ pyFloatRepr x ++ " ≥ threshold " ++ pyFloatRepr t)
      = false := by
  apply pyIn_false_of_char 'B'
  · decide
  · exact not_mem_pass_reason_of_not_float 'B' x t (by decide) (by decide) (by decide)

lemma pyIn_pass_reason_pass (x t : ℚ) :
    pyIn "PASS" ("PASS - Score " ++ pyFloatRepr x ++ " ≥ threshold " ++ pyFloatRepr t)
      = true := by
  apply pyIn_true_of_pre
  rw [String.data_append, String.data_append, String.data_append]
  have h1 : "PASS".data <+: "PASS - Score ".data := by decide
  exact h1.trans (((List.prefix_append _ _).trans (List.prefix_append _ _)).trans
    (List.prefix_append _ _))

lemma not_mem_max_reason (c : Char) (m : ℕ)
    (h1 : c ∉ "Max rounds (".data) (h2 : c ∉ ") reached".data)
    (h3 : c ∉ "0123456789".data) :
    c ∉ ("Max rounds (" ++ natStr m ++ ") reached").data := by
  rw [String.data_append, String.data_append]
  simp only [List.mem_append]
  rintro ((hc | hc) | hc)
  · exact h1 hc
  · exact h3 (natStr_subset m c hc)
  · exact h2 hc

lemma pyIn_max_reason_blocked (m : ℕ) :
    pyIn "BLOCKED" ("Max rounds (" ++ natStr m ++ ") reached") = false := by
  apply pyIn_false_of_char 'B'
  · decide
  · exact not_mem_max_reason 'B' m (by decide) (by decide) (by decide)

lemma pyIn_max_reason_pass (m : ℕ) :
    pyIn "PASS" ("Max rounds (" ++ natStr m ++ ") reached") = false := by
  apply pyIn_false_of_char 'P'
  · decide
  · exact not_mem_max_reason 'P' m (by decide) (by decide) (by decide)

lemma pyIn_max_reason_threshold (m : ℕ) :
    pyIn "threshold" (pyLower ("Max rounds (" ++ natStr m ++ ") reached")) = false := by
  apply pyIn_false_of_char 'l'
  · decide
  · show 'l' ∉ (pyLower _).data
    have hdata : (pyLower ("Max rounds (" ++ natStr m ++ ") reached")).data
        = ("Max rounds (" ++ natStr m ++ ") reached").data.map Char.toLower := rfl
    rw [hdata]
    simp only [List.mem_map, not_exists]
    rintro c ⟨hc, hl⟩
    rw [String.data_append, String.data_append] at hc
    simp only [List.mem_append] at hc
    rcases hc with (hc | hc) | hc
    · revert hl
      revert hc
      revert c
      decide
    · rw [digits_toLower c (natStr_subset m c hc)] at hl
      have : c ∉ "0123456789".data → False := fun hn => hn (natStr_subset m c hc)
      revert this
      rw [hl]
      intro h
      exact h (by decide)
    · revert hl
      revert hc
      revert c
      decide

/-! ### Characterizations of the stopping logic -/

lemma latest_score_some (st : WorkflowState) (ev : PackEvaluation)
    (h : st.latest_evaluation = some ev) :
    st.latest_score = some ev.overall_score := by
  unfold WorkflowState.latest_score
  rw [h]
  rfl

lemma isEmpty_false_of_ne_nil {α : Type} {l : List α} (h : l ≠ []) : l.isEmpty = false := by
  cases l with
  | nil => exact absurd rfl h
  | cons a t => rfl

lemma should_continue_blocked (st : WorkflowState) (ev : PackEvaluation)
    (h : st.latest_evaluation = some ev) (hc : ev.critical_issues ≠ []) :
    st.should_continue
      = (false, "BLOCKED by " ++ natStr ev.critical_issues.length ++ " critical issue(s)") := by
  unfold WorkflowState.should_continue
  rw [h]
  simp [isEmpty_false_of_ne_nil hc]

lemma should_continue_pass (st : WorkflowState) (ev : PackEvaluation)
    (h : st.latest_evaluation = some ev) (hc : ev.critical_issues = [])
    (hp : ev.passes_threshold = true) :
    st.should_continue
      = (false, "PASS - Score " ++ pyFloatRepr ev.overall_score ++ " ≥ threshold "
          ++ pyFloatRepr st.quality_threshold) := by
  unfold WorkflowState.should_continue
  rw [h]
  simp [hc, hp]

lemma should_continue_max (st : WorkflowState) (ev : PackEvaluation)
    (h : st.latest_evaluation = some ev) (hc : ev.critical_issues = [])
    (hp : ev.passes_threshold = false) (hm : st.max_rounds < st.current_round) :
    st.should_continue = (false, "Max rounds (" ++ natStr st.max_rounds ++ ") reached") := by
  unfold WorkflowState.should_continue
  rw [h]
  simp [hc, hp, hm]

lemma should_continue_score_low (st : WorkflowState) (ev : PackEvaluation)
    (h : st.latest_evaluation = some ev) (hc : ev.critical_issues = [])
    (hp : ev.passes_threshold = false) (hm : st.current_round ≤ st.max_rounds) :
    st.should_continue
      = (true, "Score " ++ pyFloatRepr ev.overall_score ++ " < threshold "
          ++ pyFloatRepr st.quality_threshold) := by
  unfold WorkflowState.should_continue
  rw [h]
  simp [hc, hp, Nat.not_lt.mpr hm]

/-- Behaviour of `check_stopping_conditions` on a state whose latest evaluation has
critical issues: always `(True, "BLOCKED", …)`. -/
lemma check_blocked (st : WorkflowState) (ev : PackEvaluation)
    (h : st.latest_evaluation = some ev) (hc : ev.critical_issues ≠ []) :
    check_stopping_conditions st
      = (true, "BLOCKED",
         "BLOCKED by " ++ natStr ev.critical_issues.length ++ " critical issue(s)") := by
  unfold check_stopping_conditions
  rw [should_continue_blocked st ev h hc]
  simp [pyIn_blocked_reason]

/-- Behaviour of `check_stopping_conditions` on a state whose latest evaluation passes
the (hardcoded) threshold with no critical issues: `(True, "PASS", …)`. -/
lemma check_pass (st : WorkflowState) (ev : PackEvaluation)
    (h : st.latest_evaluation = some ev) (hc : ev.critical_issues = [])
    (hp : ev.passes_threshold = true) :
    check_stopping_conditions st
      = (true, "PASS",
         "PASS - Score " ++ pyFloatRepr ev.overall_score ++ " ≥ threshold "
           ++ pyFloatRepr st.quality_threshold) := by
  unfold check_stopping_conditions
  rw [should_continue_pass st ev h hc hp]
  simp [pyIn_pass_reason_blocked, pyIn_pass_reason_pass]

/-- Behaviour of `check_stopping_conditions` in the max-rounds-exhausted situation:
terminal, with the label decided by the Python truthiness test
`latest_score and latest_score >= quality_threshold`. -/
lemma check_max (st : WorkflowState) (ev : PackEvaluation)
    (h : st.latest_evaluation = some ev) (hc : ev.critical_issues = [])
    (hp : ev.passes_threshold = false) (hm : st.max_rounds < st.current_round) :
    check_stopping_conditions st
      = (true,
         if ev.overall_score ≠ 0 ∧ st.quality_threshold ≤ ev.overall_score then "PASS"
         else "CONTINUE",
         if ev.overall_score ≠ 0 ∧ st.quality_threshold ≤ ev.overall_score then
           "Max rounds reached, but quality acceptable (" ++ pyFloatRepr ev.overall_score
             ++ "/10)"
         else "Max rounds reached with score " ++ pyFloatRepr ev.overall_score ++ "/10") := by
  unfold check_stopping_conditions
  rw [should_continue_max st ev h hc hp hm]
  simp only [pyIn_max_reason_blocked, pyIn_max_reason_pass, pyIn_max_reason_threshold,
    latest_score_some st ev h]
  by_cases hcond : ev.overall_score ≠ 0 ∧ st.quality_threshold ≤ ev.overall_score
  · simp [hcond.1, hcond.2, Option.getD]
  · rw [Classical.not_and_iff_or_not_not] at hcond
    rcases hcond with hz | ht
    · have hz0 : ev.overall_score = 0 := Classical.not_not.mp hz
      simp [hz0]
    · have ht' : ¬ st.quality_threshold ≤ ev.overall_score := ht
      simp [ht']

/-- Behaviour of `check_stopping_conditions` when `should_continue` says continue:
`(False, "CONTINUE", reason)`. -/
lemma check_continue (st : WorkflowState) (h : (st.should_continue).1 = true) :
    check_stopping_conditions st = (false, "CONTINUE", (st.should_continue).2) := by
  unfold check_stopping_conditions
  simp [h]

/-! ### Concrete fixtures -/

/-- A one-evaluation round used by the concrete fixtures. -/
def mkRound (n : ℕ) (ev : PackEvaluation) : RoundState :=
  { round_num := n, timestamp := "t", prompts_used := [("starting", "p")],
    evaluation := some ev, variants_generated := 1, cost_usd := 0 }

/-- An evaluation with the given score and critical issues and no other
content. -/
def mkEval (score : ℚ) (critical : List String) : PackEvaluation :=
  { pack_name := "demo", overall_score := score, dimension_scores := [],
    critical_issues := critical, selected_images := [], deltas := [],
    automated_checks_passed := true }

/-- State for exhibiting the hardcoded-threshold divergence: threshold 9,
latest score 8.7, no critical issues, round budget not exhausted. -/
def stC1 : WorkflowState :=
  { pack_name := "demo", started_at := "s", max_rounds := 3, quality_threshold := 9,
    rounds := [mkRound 1 (mkEval (87/10) [])], completed := false, completion_reason := "" }

/-- C1: claim says the evaluator stops with PASS iff the latest
overall_score ≥ the state's quality_threshold (no critical issues, round
budget not exhausted).  The code instead compares against the constant
8.5 (`PackEvaluation.passes_threshold`), so with quality_threshold 9 and
score 8.7 it stops with decision PASS although 8.7 < 9 — contradicting
the claim and the code's own PASS reason message ("Score 8.7 ≥ threshold
9"). -/
theorem C1_pass_ignores_state_threshold :
    (check_stopping_conditions stC1).1 = true
    ∧ (check_stopping_conditions stC1).2.1 = "PASS"
    ∧ stC1.quality_threshold = 9
    ∧ stC1.latest_score = some (87/10)
    ∧ (87/10 : ℚ) < stC1.quality_threshold
    ∧ stC1.current_round ≤ stC1.max_rounds
    ∧ Option.map (fun e => e.critical_issues) stC1.latest_evaluation = some [] := by
  have h : stC1.latest_evaluation = some (mkEval (87/10) []) := rfl
  have hp : (mkEval (87/10) []).passes_threshold = true := by
    have hge : (87/10 : ℚ) ≥ 8.5 := by norm_num
    simp [PackEvaluation.passes_threshold, mkEval, hge]
  have hch := check_pass stC1 (mkEval (87/10) []) h rfl hp
  refine ⟨by rw [hch], by rw [hch], rfl, ?_, by norm_num [stC1], ?_, by rw [h]; rfl⟩
  · rw [latest_score_some stC1 (mkEval (87/10) []) h]
    rfl
  · norm_num [stC1, WorkflowState.current_round]

/-- C2: for every state whose latest round carries an evaluation with
non-empty critical_issues, the stopping-condition evaluator stops with
decision BLOCKED, regardless of the overall score. -/
theorem C2_critical_blocks (st : WorkflowState) (ev : PackEvaluation)
    (h : st.latest_evaluation = some ev) (hc : ev.critical_issues ≠ []) :
    (check_stopping_conditions st).1 = true
    ∧ (check_stopping_conditions st).2.1 = "BLOCKED" := by
  rw [check_blocked st ev h hc]
  exact ⟨rfl, rfl⟩

/-- State with a perfect 10.0 score but one critical issue. -/
def stC2 : WorkflowState :=
  { pack_name := "demo", started_at := "s", max_rounds := 3, quality_threshold := 8.5,
    rounds := [mkRound 1 (mkEval 10 ["Copyright logo visible"])], completed := false,
    completion_reason := "" }

/-- Witness for C2: even a 10.0 score with one critical issue yields
BLOCKED, not PASS. -/
theorem C2_critical_blocks_witness :
    (mkEval 10 ["Copyright logo visible"]).overall_score = 10
    ∧ (check_stopping_conditions stC2).1 = true
    ∧ (check_stopping_conditions stC2).2.1 = "BLOCKED" := by
  refine ⟨rfl, ?_⟩
  exact C2_critical_blocks stC2 (mkEval 10 ["Copyright logo visible"]) rfl (by simp [mkEval])

/-- C3 (amended): when the latest evaluation has no critical issues, does
not pass, and the round budget is exhausted, the evaluator is terminal
(should_stop), and the label is PASS exactly when the latest score is
nonzero and ≥ quality_threshold (the nonzero condition comes from the
Python truthiness test `if latest_score and …`); otherwise the label is
the continue-with-caveat CONTINUE. -/
theorem C3_exhausted_terminal (st : WorkflowState) (ev : PackEvaluation)
    (h : st.latest_evaluation = some ev) (hc : ev.critical_issues = [])
    (hp : ev.passes_threshold = false) (hm : st.max_rounds < st.current_round) :
    (check_stopping_conditions st).1 = true
    ∧ ((check_stopping_conditions st).2.1 = "PASS"
        ↔ (ev.overall_score ≠ 0 ∧ st.quality_threshold ≤ ev.overall_score))
    ∧ ((check_stopping_conditions st).2.1 = "CONTINUE"
        ↔ ¬ (ev.overall_score ≠ 0 ∧ st.quality_threshold ≤ ev.overall_score)) := by
  rw [check_max st ev h hc hp hm]
  by_cases hcond : ev.overall_score ≠ 0 ∧ st.quality_threshold ≤ ev.overall_score
  · refine ⟨rfl, ?_, ?_⟩ <;> simp [hcond]
  · refine ⟨rfl, ?_, ?_⟩ <;> simp [hcond]

/-- State at threshold 0 with latest score exactly 0.0, budget
exhausted. -/
def stC3 : WorkflowState :=
  { pack_name := "demo", started_at := "s", max_rounds := 1, quality_threshold := 0,
    rounds := [mkRound 1 (mkEval 0 [])], completed := false, completion_reason := "" }

/-- C3 counterexample to the claim as stated: with quality_threshold 0
and latest overall_score 0.0 (no critical issues, not passing, budget
exhausted), the score is ≥ the threshold yet the decision label is
CONTINUE, not PASS: the Python test `if latest_score and latest_score >=
threshold` treats the 0.0 score as falsy.  The outcome is still terminal
(should_stop = True). -/
theorem C3_zero_score_is_not_soft_pass :
    (check_stopping_conditions stC3).1 = true
    ∧ (check_stopping_conditions stC3).2.1 = "CONTINUE"
    ∧ (check_stopping_conditions stC3).2.1 ≠ "PASS"
    ∧ stC3.latest_score = some 0
    ∧ stC3.quality_threshold ≤ 0
    ∧ Option.map (fun e => e.critical_issues) stC3.latest_evaluation = some []
    ∧ Option.map PackEvaluation.passes_threshold stC3.latest_evaluation = some false
    ∧ stC3.max_rounds < stC3.current_round := by
  have h : stC3.latest_evaluation = some (mkEval 0 []) := rfl
  have hp : (mkEval 0 []).passes_threshold = false := by
    have hge : ¬ ((0 : ℚ) ≥ 8.5) := by norm_num
    simp [PackEvaluation.passes_threshold, mkEval, hge]
  have hm : stC3.max_rounds < stC3.current_round := by
    norm_num [stC3, WorkflowState.current_round]
  have hch := check_max stC3 (mkEval 0 []) h rfl hp hm
  have hcond : ¬ ((mkEval 0 []).overall_score ≠ 0
      ∧ stC3.quality_threshold ≤ (mkEval 0 []).overall_score) := by
    rintro ⟨h0, _⟩
    exact h0 rfl
  rw [hcond |> if_neg] at hch
  refine ⟨by rw [hch], by rw [hch], by rw [hch]; decide, ?_, le_refl 0,
    by rw [h]; rfl, by rw [h]; simp [hp], hm⟩
  rw [latest_score_some stC3 (mkEval 0 []) h]
  rfl

/-- State for the C3 witness: score 5 < threshold 8.5, budget
exhausted. -/
def stC3w : WorkflowState :=
  { pack_name := "demo", started_at := "s", max_rounds := 1, quality_threshold := 8.5,
    rounds := [mkRound 1 (mkEval 5 [])], completed := false, completion_reason := "" }

/-- Witness for the amended C3: exhausted budget with score 5 below the
threshold is terminal with the continue-with-caveat label. -/
theorem C3_exhausted_terminal_witness :
    (check_stopping_conditions stC3w).1 = true
    ∧ (check_stopping_conditions stC3w).2.1 = "CONTINUE" := by
  have hp : (mkEval 5 []).passes_threshold = false := by
    have hge : ¬ ((5 : ℚ) ≥ 8.5) := by norm_num
    simp [PackEvaluation.passes_threshold, mkEval, hge]
  have res := C3_exhausted_terminal stC3w (mkEval 5 []) rfl rfl hp
    (by norm_num [stC3w, WorkflowState.current_round])
  refine ⟨res.1, res.2.2.mpr ?_⟩
  rintro ⟨-, hle⟩
  have : ¬ ((8.5 : ℚ) ≤ 5) := by norm_num
  exact this hle

/-- C4: `calculate_overall_score` returns the weight-normalized average
Σ(score·weight)/Σ(weight) for any non-empty list with non-zero total
weight (dividing by the observed total weight, not assuming the weights
sum to 1), and returns 0.0 both for the empty list and for a zero total
weight. -/
theorem C4_overall_score_formula (scores : List EvaluationScore) :
    (scores = [] → calculate_overall_score scores = 0)
    ∧ (scores ≠ [] → (scores.map (fun s => s.weight)).sum = 0 →
        calculate_overall_score scores = 0)
    ∧ (scores ≠ [] → (scores.map (fun s => s.weight)).sum ≠ 0 →
        calculate_overall_score scores
          = (scores.map (fun s => s.score * s.weight)).sum
            / (scores.map (fun s => s.weight)).sum) := by
  unfold calculate_overall_score
  refine ⟨fun h => by simp [h], fun h hw => ?_, fun h hw => ?_⟩
  · rw [if_neg (by simp [isEmpty_false_of_ne_nil h])]
    simp [hw]
  · rw [if_neg (by simp [isEmpty_false_of_ne_nil h])]
    simp [hw]

/-- A concrete dimension score for the C4 witness. -/
def dimA : EvaluationScore :=
  { dimension := "brand_consistency", score := 8, weight := 1/4,
    justification := "j", issues := [] }

/-- A second concrete dimension score for the C4 witness. -/
def dimB : EvaluationScore :=
  { dimension := "visual_appeal", score := 6, weight := 3/4,
    justification := "j", issues := [] }

/-- Witness for C4 at a concrete two-dimension list with total weight 1:
the weighted average of 8 (weight 1/4) and 6 (weight 3/4) is 6.5. -/
theorem C4_overall_score_formula_witness :
    ([dimA, dimB] : List EvaluationScore) ≠ []
    ∧ calculate_overall_score [dimA, dimB] = 13/2 := by
  have h := (C4_overall_score_formula [dimA, dimB]).2.2 (by simp)
    (by simp [dimA, dimB]; norm_num)
  refine ⟨by simp, ?_⟩
  rw [h]
  simp [dimA, dimB]
  norm_num

/-! ### Filesystem model for the automated technical checker

A `PackDir` records exactly the observations the validators in
`rubric.py` make of the pack directory: existence of the three artifact
directories, and for each globbed file its name, the outcome of opening
it with PIL (`Except.error` carries the exception message) and its
`st_size`.  The `overlays` list is in glob order, `listings` in sorted
glob order, as in the source. -/

/-- Decidable equality for PIL open outcomes (needed so witnesses can be
checked by `decide`). -/
instance : DecidableEq (Except String (ℕ × ℕ)) := fun a b => by
  cases a <;> cases b
  case error.error x y => exact decidable_of_iff (x = y) (by simp)
  case error.ok x y => exact isFalse (by simp)
  case ok.error x y => exact isFalse (by simp)
  case ok.ok x y => exact decidable_of_iff (x = y) (by simp)

/-- An overlay PNG under `03_final/`. -/
structure ImageFile where
  name : String
  read : Except String (ℕ × ℕ)
deriving DecidableEq

/-- A listing JPEG under `listing_images/`. -/
structure ListingFile where
  name : String
  read : Except String (ℕ × ℕ)
  sizeBytes : ℕ
deriving DecidableEq

/-- A download ZIP under `zips/`. -/
structure ZipFile where
  name : String
  sizeBytes : ℕ
deriving DecidableEq

/-- Observable contents of a pack directory. -/
structure PackDir where
  root : String
  final_dir_exists : Bool
  overlays : List ImageFile
  listing_dir_exists : Bool
  listings : List ListingFile
  zips_dir_exists : Bool
  zips : List ZipFile
deriving DecidableEq

/-- File size in megabytes: `st_size / (1024 * 1024)`. -/
def sizeMB (bytes : ℕ) : ℚ := (bytes : ℚ) / (1024 * 1024)

/-- Issues contributed by one overlay file in
`rubric.validate_technical_overlays`. -/
def overlayIssue (f : ImageFile) : List String :=
  match f.read with
  | Except.error e => ["Failed to read " ++ f.name ++ ": " ++ e]
  | Except.ok (w, h) =>
      if (w, h) ≠ (1920, 1080) then
        ["Overlay wrong resolution: " ++ f.name ++ " is " ++ natStr w ++ "x" ++ natStr h
          ++ ", expected 1920x1080"]
      else []

/-- Embeds `rubric.validate_technical_overlays`. -/
def validate_technical_overlays (p : PackDir) : List String × Bool :=
  if ¬ p.final_dir_exists then
    (["Final directory not found: " ++ p.root ++ "/03_final"], false)
  else if p.overlays.isEmpty then
    (["No overlay PNG files found in " ++ p.root ++ "/03_final"], false)
  else
    let issues := (p.overlays.map overlayIssue).flatten
    (issues, decide (issues.length = 0))

/-- Errors contributed by one listing photo (at enumeration index `idx`)
in `rubric.validate_etsy_listings`; note that the over-2MB branch appends
to `errors` despite its `Warning:` comment in the source. -/
def listingFileErrors (idx : ℕ) (f : ListingFile) : List String :=
  match f.read with
  | Except.error e => ["Failed to validate " ++ f.name ++ ": " ++ e]
  | Except.ok (w, h) =>
      (if w < 2000 ∨ h < 2000 then
        [f.name ++ ": Too small " ++ natStr w ++ "x" ++ natStr h
          ++ ", Etsy requires min 2000px on smallest side"]
      else [])
      ++ (if idx = 0 ∧ w < h then
        [f.name ++ ": First listing image should be landscape or square (current: "
          ++ natStr w ++ "x" ++ natStr h ++ ")"]
      else [])
      ++ (if sizeMB f.sizeBytes > 2 then
        [f.name ++ ": Size " ++ pyFloatRepr (sizeMB f.sizeBytes)
          ++ "MB exceeds Etsy\x27s 2MB limit"]
      else [])

/-- Warnings contributed by one listing photo in
`rubric.validate_etsy_listings` (the over-1MB recommendation). -/
def listingFileWarnings (f : ListingFile) : List String :=
  match f.read with
  | Except.error _ => []
  | Except.ok _ =>
      if sizeMB f.sizeBytes > 1 then
        [f.name ++ ": Size " ++ pyFloatRepr (sizeMB f.sizeBytes)
          ++ "MB > 1MB (Etsy recommends ≤1MB for faster loading)"]
      else []

/-- Embeds `rubric.validate_etsy_listings`: returns `(errors, warnings,
passes)`; a missing or empty listing directory is not an error. -/
def validate_etsy_listings (p : PackDir) : List String × List String × Bool :=
  if ¬ p.listing_dir_exists then ([], [], true)
  else if p.listings.isEmpty then ([], [], true)
  else
    let errors := (p.listings.enum.map (fun x => listingFileErrors x.1 x.2)).flatten
    let warnings := (p.listings.map listingFileWarnings).flatten
    (errors, warnings, decide (errors.length = 0))

/-- Issues contributed by one ZIP in `rubric.validate_etsy_downloads`. -/
def zipIssue (z : ZipFile) : List String :=
  if sizeMB z.sizeBytes > 20 then
    [z.name ++ ": Size " ++ pyFloatRepr (sizeMB z.sizeBytes)
      ++ "MB exceeds Etsy\x27s 20MB limit"]
  else []

/-- Embeds `rubric.validate_etsy_downloads`: max 5 files, max 20MB each; a
missing or empty zips directory is not an error. -/
def validate_etsy_downloads (p : PackDir) : List String × Bool :=
  if ¬ p.zips_dir_exists then ([], true)
  else if p.zips.isEmpty then ([], true)
  else
    let issues :=
      (if p.zips.length > 5 then
        ["Too many download files: " ++ natStr p.zips.length
          ++ " ZIPs found, Etsy allows max 5 files"]
      else [])
      ++ (p.zips.map zipIssue).flatten
    (issues, decide (issues.length = 0))

/-- Embeds `rubric.check_critical_issues`: ship-blocking issues (missing final
directory, no overlays, wrong overlay resolution, oversized download
ZIPs). -/
def check_critical_issues (p : PackDir) : List String :=
  if ¬ p.final_dir_exists then ["Missing 03_final/ directory"]
  else
    (if p.overlays.isEmpty then ["No overlay PNG files found in 03_final/"] else [])
    ++ ((validate_technical_overlays p).1.filter
          (fun i => pyIn "wrong resolution" (pyLower i))).map (fun i => "CRITICAL: " ++ i)
    ++ (if p.zips_dir_exists then
          ((validate_etsy_downloads p).1.filter
            (fun i => pyIn "exceeds" (pyLower i) && pyIn "20mb" (pyLower i))).map
            (fun i => "CRITICAL: " ++ i)
        else [])

/-- Embeds `rubric.compute_automated_score`: 10 minus 0.5 per issue (overlay
issues, listing errors — not warnings — and ZIP issues), floored at 0. -/
def compute_automated_score (p : PackDir) : ℚ × List String :=
  let all_issues := (validate_technical_overlays p).1
    ++ (validate_etsy_listings p).1 ++ (validate_etsy_downloads p).1
  (max 0 (10 - (all_issues.length : ℚ) * 0.5), all_issues)

/-- C5: `compute_automated_score` is `max(0, 10 − 0.5·n)` where `n`
counts the issues aggregated from the overlay, listing-photo (errors
only, warnings excluded) and archive validations; 3 issues give 8.5, 25
issues give 0.0, and the score is never negative. -/
theorem C5_automated_score (p : PackDir) :
    (compute_automated_score p).2
      = (validate_technical_overlays p).1 ++ (validate_etsy_listings p).1
        ++ (validate_etsy_downloads p).1
    ∧ (compute_automated_score p).1
        = max 0 (10 - ((compute_automated_score p).2.length : ℚ) * 0.5)
    ∧ ((compute_automated_score p).2.length = 3 → (compute_automated_score p).1 = 8.5)
    ∧ ((compute_automated_score p).2.length = 25 → (compute_automated_score p).1 = 0)
    ∧ 0 ≤ (compute_automated_score p).1 := by
  have hform : (compute_automated_score p).1
      = max 0 (10 - ((compute_automated_score p).2.length : ℚ) * 0.5) := rfl
  refine ⟨rfl, hform, ?_, ?_, ?_⟩
  · intro h
    rw [hform, h]
    rw [max_eq_right (by norm_num)]
    norm_num
  · intro h
    rw [hform, h]
    rw [max_eq_left (by norm_num)]
  · rw [hform]
    exact le_max_left 0 _

/-- An overlay whose resolution is off by one pixel row. -/
def badOverlay : ImageFile := { name := "starting_01.png", read := Except.ok (1920, 1081) }

/-- A pack with exactly 3 automated issues (three wrong-resolution
overlays; listing and zips directories not yet produced). -/
def packC5a : PackDir :=
  { root := "packs/demo", final_dir_exists := true,
    overlays := [badOverlay, badOverlay, badOverlay],
    listing_dir_exists := false, listings := [], zips_dir_exists := false, zips := [] }

/-- A pack with exactly 25 automated issues. -/
def packC5b : PackDir :=
  { root := "packs/demo", final_dir_exists := true,
    overlays := List.replicate 25 badOverlay,
    listing_dir_exists := false, listings := [], zips_dir_exists := false, zips := [] }

/-- Witness for C5: 3 issues score 8.5; 25 issues floor at 0.0. -/
theorem C5_automated_score_witness :
    (compute_automated_score packC5a).2.length = 3
    ∧ (compute_automated_score packC5a).1 = 8.5
    ∧ (compute_automated_score packC5b).2.length = 25
    ∧ (compute_automated_score packC5b).1 = 0 := by
  have h3 : (compute_automated_score packC5a).2.length = 3 := by decide
  have h25 : (compute_automated_score packC5b).2.length = 25 := by decide
  exact ⟨h3, (C5_automated_score packC5a).2.2.1 h3, h25,
    (C5_automated_score packC5b).2.2.2.1 h25⟩

lemma mem_enumFrom_snd {α : Type} :
    ∀ (l : List α) (n i : ℕ) (a : α), (i, a) ∈ List.enumFrom n l → a ∈ l := by
  intro l
  induction l with
  | nil => intro n i a hm; simp [List.enumFrom] at hm
  | cons x xs ih =>
    intro n i a hm
    rw [List.enumFrom] at hm
    rcases List.mem_cons.mp hm with h1 | h2
    · have hax : a = x := congrArg Prod.snd h1
      rw [hax]
      exact List.mem_cons_self x xs
    · exact List.mem_cons_of_mem x (ih (n + 1) i a h2)

lemma mem_enum_snd {α : Type} (l : List α) (i : ℕ) (a : α)
    (h : (i, a) ∈ l.enum) : a ∈ l :=
  mem_enumFrom_snd l 0 i a h

/-- C10: a listing photo over 2MB is reported twice — in the warnings
via the over-1MB branch and in the errors via the over-2MB branch — and
the automated score aggregates listing errors but never listing warnings,
so only the error contributes to the penalty. -/
theorem C10_oversize_listing_double_report (p : PackDir) (idx : ℕ) (f : ListingFile)
    (w h : ℕ) (hdir : p.listing_dir_exists = true)
    (hmem : (idx, f) ∈ p.listings.enum) (hok : f.read = Except.ok (w, h))
    (hsize : sizeMB f.sizeBytes > 2) :
    (f.name ++ ": Size " ++ pyFloatRepr (sizeMB f.sizeBytes)
      ++ "MB > 1MB (Etsy recommends ≤1MB for faster loading)")
      ∈ (validate_etsy_listings p).2.1
    ∧ (f.name ++ ": Size " ++ pyFloatRepr (sizeMB f.sizeBytes)
        ++ "MB exceeds Etsy\x27s 2MB limit") ∈ (validate_etsy_listings p).1
    ∧ (compute_automated_score p).2
        = (validate_technical_overlays p).1 ++ (validate_etsy_listings p).1
          ++ (validate_etsy_downloads p).1 := by
  have hfmem : f ∈ p.listings := mem_enum_snd _ _ _ hmem
  have hne : ¬ p.listings.isEmpty = true := by
    cases hl : p.listings with
    | nil => rw [hl] at hfmem; simp at hfmem
    | cons a t => simp
  have hval : validate_etsy_listings p
      = ((p.listings.enum.map (fun x => listingFileErrors x.1 x.2)).flatten,
         (p.listings.map listingFileWarnings).flatten,
         decide ((p.listings.enum.map (fun x => listingFileErrors x.1 x.2)).flatten.length = 0)) := by
    unfold validate_etsy_listings
    rw [hdir]
    rw [if_neg (by simp)]
    rw [if_neg hne]
  refine ⟨?_, ?_, rfl⟩
  · rw [hval]
    apply List.mem_flatten.mpr
    refine ⟨listingFileWarnings f, List.mem_map_of_mem listingFileWarnings hfmem, ?_⟩
    have h1 : sizeMB f.sizeBytes > 1 := lt_trans (by norm_num) hsize
    simp [listingFileWarnings, hok, h1]
  · rw [hval]
    apply List.mem_flatten.mpr
    refine ⟨listingFileErrors idx f,
      List.mem_map_of_mem (fun x => listingFileErrors x.1 x.2) hmem, ?_⟩
    rw [listingFileErrors, hok]
    simp only [hsize, if_pos]
    apply List.mem_append_right
    exact List.mem_singleton_self _

/-- A 3MB listing photo. -/
def fatJpg : ListingFile :=
  { name := "listing_01.jpg", read := Except.ok (2400, 2400), sizeBytes := 3145728 }

/-- A pack containing one oversized listing photo. -/
def packC10 : PackDir :=
  { root := "packs/demo", final_dir_exists := true,
    overlays := [{ name := "starting_01.png", read := Except.ok (1920, 1080) }],
    listing_dir_exists := true, listings := [fatJpg],
    zips_dir_exists := false, zips := [] }

/-- Witness for C10 at a concrete 3MB listing photo. -/
theorem C10_oversize_listing_double_report_witness :
    (fatJpg.name ++ ": Size " ++ pyFloatRepr (sizeMB fatJpg.sizeBytes)
      ++ "MB > 1MB (Etsy recommends ≤1MB for faster loading)")
      ∈ (validate_etsy_listings packC10).2.1
    ∧ (fatJpg.name ++ ": Size " ++ pyFloatRepr (sizeMB fatJpg.sizeBytes)
        ++ "MB exceeds Etsy\x27s 2MB limit") ∈ (validate_etsy_listings packC10).1
    ∧ (compute_automated_score packC10).2
        = (validate_technical_overlays packC10).1 ++ (validate_etsy_listings packC10).1
          ++ (validate_etsy_downloads packC10).1 :=
  C10_oversize_listing_double_report packC10 0 fatJpg 2400 2400 rfl (by decide) rfl
    (by norm_num [sizeMB, fatJpg])

/-! ### The orchestrator driver loop (`run_multi_agent_workflow`)

One round's collaborator-produced content (prompt refinement, image
generation, evaluation) is external to the core, so it is an oracle
parameter; the driver itself pins `round_num` to `current_round` when
`run_round` constructs the `RoundState`.  `save` writes the in-memory
state to disk unchanged, so it does not appear in the loop model;
persistence is modelled separately by `stateToJson` / `stateFromJson`. -/

/-- What one round produces apart from the round number. -/
structure RoundResult where
  timestamp : String
  prompts_used : List (String × String)
  evaluation : Option PackEvaluation
  variants_generated : ℕ
  cost_usd : ℚ

/-- Embeds `orchestrator.run_round`, restricted to the `RoundState` it returns:
`RoundState(round_num=round_num, …)` where the driver passed
`round_num=current_round`. -/
def run_round (oracle : WorkflowState → RoundResult) (st : WorkflowState) : RoundState :=
  let r := oracle st
  { round_num := st.current_round, timestamp := r.timestamp,
    prompts_used := r.prompts_used, evaluation := r.evaluation,
    variants_generated := r.variants_generated, cost_usd := r.cost_usd }

/-- The `while True` driver loop of `orchestrator.run_multi_agent_workflow`
with explicit fuel (fuel exhaustion returns the state reached so far):
pre-check `should_continue`, else run a round, append it, post-check
`check_stopping_conditions`, finalize on a terminal outcome. -/
def run_workflow_loop (oracle : WorkflowState → RoundResult) :
    ℕ → WorkflowState → WorkflowState
  | 0, st => st
  | fuel + 1, st =>
      let sc := st.should_continue
      if sc.1 then
        let st2 := st.add_round (run_round oracle st)
        let chk := check_stopping_conditions st2
        if chk.1 then st2.finalize (chk.2.1 ++ ": " ++ chk.2.2)
        else run_workflow_loop oracle fuel st2
      else st.finalize sc.2

/-- The trace of states at which the driver loop runs a round. -/
def loop_rounds_run (oracle : WorkflowState → RoundResult) :
    ℕ → WorkflowState → List WorkflowState
  | 0, _ => []
  | fuel + 1, st =>
      let sc := st.should_continue
      if sc.1 then
        let st2 := st.add_round (run_round oracle st)
        if (check_stopping_conditions st2).1 then [st]
        else st :: loop_rounds_run oracle fuel st2
      else []

lemma should_continue_finalize (st : WorkflowState) (r : String) :
    (st.finalize r).should_continue = st.should_continue := rfl

lemma completed_add_round (st : WorkflowState) (r : RoundState) :
    (st.add_round r).completed = st.completed := rfl

/-- Fact that `check_stopping_conditions` stops exactly when `should_continue` says
not to continue. -/
lemma check_fst (st : WorkflowState) :
    (check_stopping_conditions st).1 = ! (st.should_continue).1 := by
  unfold check_stopping_conditions
  by_cases h : (st.should_continue).1 = true
  · simp [h]
  · have h' : (st.should_continue).1 = false := by
      revert h; cases (st.should_continue).1 <;> simp
    rw [h']
    simp only [Bool.false_eq_true, if_false, Bool.not_false]
    split_ifs <;> rfl

lemma run_workflow_loop_succ (oracle : WorkflowState → RoundResult) (n : ℕ)
    (st : WorkflowState) :
    run_workflow_loop oracle (n + 1) st
      = if (st.should_continue).1 then
          (if (check_stopping_conditions (st.add_round (run_round oracle st))).1 then
            (st.add_round (run_round oracle st)).finalize
              ((check_stopping_conditions (st.add_round (run_round oracle st))).2.1 ++ ": "
                ++ (check_stopping_conditions (st.add_round (run_round oracle st))).2.2)
          else run_workflow_loop oracle n (st.add_round (run_round oracle st)))
        else st.finalize (st.should_continue).2 := rfl

lemma loop_rounds_run_succ (oracle : WorkflowState → RoundResult) (n : ℕ)
    (st : WorkflowState) :
    loop_rounds_run oracle (n + 1) st
      = if (st.should_continue).1 then
          (if (check_stopping_conditions (st.add_round (run_round oracle st))).1 then [st]
           else st :: loop_rounds_run oracle n (st.add_round (run_round oracle st)))
        else [] := rfl

/-- C6: in the driver loop, (i) if the state is already terminal
(`should_continue` false — the form in which a finalized state is
persisted and resumed), the pre-round check stops the loop with zero
rounds appended; (ii) the appended rounds are exactly one per trace
element; (iii) every state at which a round is run is non-terminal and
(when the initial state is not completed) not completed, so no round is
ever run, and hence no `RoundState` ever appended, after the round that
caused the terminal transition; and (iv) whenever the loop finalizes
(sets `completed`), the resulting state is terminal, so a resumed
already-terminal state runs zero further rounds by (i). -/
theorem C6_no_round_after_terminal (oracle : WorkflowState → RoundResult)
    (n : ℕ) (st : WorkflowState) :
    ((st.should_continue).1 = false → (run_workflow_loop oracle n st).rounds = st.rounds)
    ∧ (run_workflow_loop oracle n st).rounds
        = st.rounds ++ (loop_rounds_run oracle n st).map (run_round oracle)
    ∧ (∀ s ∈ loop_rounds_run oracle n st,
        (s.should_continue).1 = true ∧ (st.completed = false → s.completed = false))
    ∧ (st.completed = false → (run_workflow_loop oracle n st).completed = true →
        ((run_workflow_loop oracle n st).should_continue).1 = false) := by
  induction n generalizing st with
  | zero =>
    refine ⟨fun _ => rfl, by simp [run_workflow_loop, loop_rounds_run], ?_, ?_⟩
    · intro s hs
      simp [loop_rounds_run] at hs
    · intro h0 hc
      simp only [run_workflow_loop] at hc
      rw [h0] at hc
      exact Bool.noConfusion hc
  | succ n ih =>
    by_cases hsc : (st.should_continue).1 = true
    · have hrun : run_workflow_loop oracle (n + 1) st
          = (if (check_stopping_conditions (st.add_round (run_round oracle st))).1 then
              (st.add_round (run_round oracle st)).finalize
                ((check_stopping_conditions (st.add_round (run_round oracle st))).2.1 ++ ": "
                  ++ (check_stopping_conditions (st.add_round (run_round oracle st))).2.2)
            else run_workflow_loop oracle n (st.add_round (run_round oracle st))) := by
        rw [run_workflow_loop_succ, if_pos hsc]
      have htr : loop_rounds_run oracle (n + 1) st
          = (if (check_stopping_conditions (st.add_round (run_round oracle st))).1 then [st]
             else st :: loop_rounds_run oracle n (st.add_round (run_round oracle st))) := by
        rw [loop_rounds_run_succ, if_pos hsc]
      by_cases hchk : (check_stopping_conditions (st.add_round (run_round oracle st))).1 = true
      · rw [if_pos hchk] at hrun htr
        refine ⟨?_, ?_, ?_, ?_⟩
        · intro hf
          rw [hf] at hsc
          exact Bool.noConfusion hsc
        · rw [hrun, htr]
          simp [WorkflowState.finalize, WorkflowState.add_round]
        · rw [htr]
          intro s hs
          have hst : s = st := List.mem_singleton.mp hs
          rw [hst]
          exact ⟨hsc, fun h => h⟩
        · intro h0 hterm
          rw [hrun, should_continue_finalize]
          have hcf := check_fst (st.add_round (run_round oracle st))
          rw [hchk] at hcf
          cases hsc2 : ((st.add_round (run_round oracle st)).should_continue).1
          · rfl
          · rw [hsc2] at hcf
            exact Bool.noConfusion hcf
      · rw [if_neg hchk] at hrun htr
        obtain ⟨ih1, ih2, ih3, ih4⟩ := ih (st.add_round (run_round oracle st))
        refine ⟨?_, ?_, ?_, ?_⟩
        · intro hf
          rw [hf] at hsc
          exact Bool.noConfusion hsc
        · rw [hrun, htr, ih2]
          simp [WorkflowState.add_round]
        · rw [htr]
          intro s hs
          rcases List.mem_cons.mp hs with hst | hs'
          · rw [hst]
            exact ⟨hsc, fun h => h⟩
          · obtain ⟨hsc', hcomp⟩ := ih3 s hs'
            exact ⟨hsc', fun h => hcomp (by rw [completed_add_round]; exact h)⟩
        · intro h0 hterm
          rw [hrun] at hterm ⊢
          exact ih4 (by rw [completed_add_round]; exact h0) hterm
    · have hsc' : (st.should_continue).1 = false := by
        revert hsc
        cases (st.should_continue).1 <;> simp
      have hrun : run_workflow_loop oracle (n + 1) st = st.finalize (st.should_continue).2 := by
        rw [run_workflow_loop_succ, if_neg hsc]
      have htr : loop_rounds_run oracle (n + 1) st = [] := by
        rw [loop_rounds_run_succ, if_neg hsc]
      refine ⟨fun _ => by rw [hrun]; rfl, ?_, ?_, ?_⟩
      · rw [hrun, htr]
        simp [WorkflowState.finalize]
      · intro s hs
        rw [htr] at hs
        simp at hs
      · intro h0 hterm
        rw [hrun, should_continue_finalize]
        exact hsc'

/-- A trivial collaborator oracle for the driver-loop witnesses. -/
def oracleW : WorkflowState → RoundResult :=
  fun _ => { timestamp := "t", prompts_used := [], evaluation := none,
             variants_generated := 0, cost_usd := 0 }

/-- A resumed already-terminal (BLOCKED) state. -/
def stC6 : WorkflowState :=
  { pack_name := "demo", started_at := "s", max_rounds := 3, quality_threshold := 8.5,
    rounds := [mkRound 1 (mkEval 3 ["logo detected"])], completed := true,
    completion_reason := "BLOCKED" }

/-- Witness for C6: resuming a terminal (BLOCKED) state runs zero
rounds. -/
theorem C6_no_round_after_terminal_witness :
    (run_workflow_loop oracleW 4 stC6).rounds = stC6.rounds := by
  have hsc : (stC6.should_continue).1 = false := by
    rw [should_continue_blocked stC6 (mkEval 3 ["logo detected"]) rfl (by simp [mkEval])]
  exact (C6_no_round_after_terminal oracleW 4 stC6).1 hsc

/-- The round-numbering invariant: `rounds[i].round_num == i+1` (strict,
contiguous, 1-indexed). -/
def rounds_indexed (st : WorkflowState) : Prop :=
  ∀ i (h : i < st.rounds.length), (st.rounds.get ⟨i, h⟩).round_num = i + 1

lemma rounds_indexed_add_round (oracle : WorkflowState → RoundResult)
    (st : WorkflowState) (h : rounds_indexed st) :
    rounds_indexed (st.add_round (run_round oracle st)) := by
  intro i hi
  have hi' : i < st.rounds.length + 1 := by
    simpa [WorkflowState.add_round] using hi
  rcases Nat.lt_succ_iff_lt_or_eq.mp hi' with hlt | heq
  · have hbase := h i hlt
    show ((st.rounds ++ [run_round oracle st]).get ⟨i, hi⟩).round_num = i + 1
    rw [List.get_eq_getElem, List.getElem_append_left hlt]
    rw [List.get_eq_getElem] at hbase
    exact hbase
  · show ((st.rounds ++ [run_round oracle st]).get ⟨i, hi⟩).round_num = i + 1
    rw [List.get_eq_getElem]
    subst heq
    simp [run_round, WorkflowState.current_round]

lemma rounds_indexed_loop (oracle : WorkflowState → RoundResult) :
    ∀ (n : ℕ) (st : WorkflowState), rounds_indexed st →
      rounds_indexed (run_workflow_loop oracle n st) := by
  intro n
  induction n with
  | zero => intro st h; exact h
  | succ n ih =>
    intro st h
    rw [run_workflow_loop_succ]
    by_cases hsc : (st.should_continue).1 = true
    · rw [if_pos hsc]
      by_cases hchk : (check_stopping_conditions (st.add_round (run_round oracle st))).1 = true
      · rw [if_pos hchk]
        exact rounds_indexed_add_round oracle st h
      · rw [if_neg hchk]
        exact ih _ (rounds_indexed_add_round oracle st h)
    · rw [if_neg hsc]
      exact h

/-- C7: `current_round` always equals `len(rounds) + 1`; a fresh state
satisfies the 1-indexed contiguous round numbering, and the driver loop
preserves it (each appended round gets `round_num = current_round`).
Together with the save/load identity (C8) this covers every state the
driver reaches, whether created fresh or resumed from disk. -/
theorem C7_round_numbering (oracle : WorkflowState → RoundResult) (n : ℕ)
    (pname ts : String) (mr : ℕ) (qt : ℚ) (st : WorkflowState) :
    st.current_round = st.rounds.length + 1
    ∧ rounds_indexed (WorkflowState.create_new pname ts mr qt)
    ∧ (rounds_indexed st → rounds_indexed (run_workflow_loop oracle n st)) := by
  refine ⟨rfl, ?_, fun h => rounds_indexed_loop oracle n st h⟩
  intro i hi
  simp [WorkflowState.create_new] at hi

/-- Witness for C7: running the driver loop on a fresh state preserves
the numbering invariant. -/
theorem C7_round_numbering_witness :
    rounds_indexed (run_workflow_loop oracleW 2 (WorkflowState.create_new "demo" "s" 1 (17/2))) :=
  (C7_round_numbering oracleW 2 "demo" "s" 1 (17/2)
    (WorkflowState.create_new "demo" "s" 1 (17/2))).2.2
    (by intro i hi; simp [WorkflowState.create_new] at hi)

/-! ### State persistence (`WorkflowState.save` / `WorkflowState.load`)

`save` serializes the state with `asdict` + `RoundState.to_dict` into a
JSON document; `load` reconstructs the nested
`EvaluationScore`/`PackEvaluation`/`RoundState` structures, applying the
`.get` defaults of the source.  JSON documents are modelled by `JValue`
(Python floats as exact rationals, dicts as key/value lists in insertion
order — CPython dicts preserve it, and `json.dump`/`json.load` round-trip
text exactly with `ensure_ascii=False`).  Exceptions `load` would raise
on malformed documents (`KeyError`, `TypeError`, …) are modelled
uniformly as `none`. -/

/-- A JSON value. -/
inductive JValue where
  | null : JValue
  | bool (b : Bool) : JValue
  | num (q : ℚ) : JValue
  | str (s : String) : JValue
  | arr (xs : List JValue) : JValue
  | obj (fields : List (String × JValue)) : JValue

/-- Dictionary lookup (`d[k]` / `d.get(k)`): keys written by `save` are
unique, so first-match lookup models Python dict access. -/
def jGet : List (String × JValue) → String → Option JValue
  | [], _ => none
  | (k', v) :: rest, k => if k' = k then some v else jGet rest k

/-- List comprehension over a fallible element transform: any element
failure fails the whole list (an uncaught exception in the Python
comprehension). -/
def mapOpt {α β : Type} (f : α → Option β) : List α → Option (List β)
  | [] => some []
  | x :: xs =>
      match f x, mapOpt f xs with
      | some y, some ys => some (y :: ys)
      | _, _ => none

/-- Expect a JSON string. -/
def jString? : JValue → Option String
  | .str s => some s
  | _ => none

/-- Expect a JSON number (Python float/int). -/
def jNum? : JValue → Option ℚ
  | .num q => some q
  | _ => none

/-- Expect a JSON number holding a non-negative integer. -/
def jNat? : JValue → Option ℕ
  | .num q => if q.den = 1 ∧ 0 ≤ q.num then some q.num.toNat else none
  | _ => none

/-- Expect a JSON bool. -/
def jBool? : JValue → Option Bool
  | .bool b => some b
  | _ => none

/-- Expect a string value in a string-valued dict entry. -/
def jStrPair? (kv : String × JValue) : Option (String × String) :=
  (jString? kv.2).map (fun v => (kv.1, v))

/-- Python truthiness of a JSON-decoded value (`if eval_data:`). -/
def jTruthy : JValue → Bool
  | .null => false
  | .bool b => b
  | .num q => decide (q ≠ 0)
  | .str s => !s.data.isEmpty
  | .arr xs => !xs.isEmpty
  | .obj fs => !fs.isEmpty

/-- Serialization of one `EvaluationScore` as written inside
`RoundState.to_dict` (field order of the dataclass / dict literal). -/
def scoreToJson (s : EvaluationScore) : JValue :=
  .obj [("dimension", .str s.dimension), ("score", .num s.score),
        ("weight", .num s.weight), ("justification", .str s.justification),
        ("issues", .arr (s.issues.map JValue.str))]

/-- Serialization of one `PackEvaluation` as written by
`RoundState.to_dict`. -/
def evalToJson (e : PackEvaluation) : JValue :=
  .obj [("pack_name", .str e.pack_name), ("overall_score", .num e.overall_score),
        ("dimension_scores", .arr (e.dimension_scores.map scoreToJson)),
        ("critical_issues", .arr (e.critical_issues.map JValue.str)),
        ("selected_images", .obj (e.selected_images.map (fun kv => (kv.1, JValue.str kv.2)))),
        ("deltas", .arr (e.deltas.map JValue.str)),
        ("automated_checks_passed", .bool e.automated_checks_passed)]

/-- Embeds `RoundState.to_dict`: `asdict` field order, with the evaluation
replaced by its explicit dict (or `null` when absent). -/
def roundToJson (r : RoundState) : JValue :=
  .obj [("round_num", .num (r.round_num : ℚ)), ("timestamp", .str r.timestamp),
        ("prompts_used", .obj (r.prompts_used.map (fun kv => (kv.1, JValue.str kv.2)))),
        ("evaluation", match r.evaluation with
          | none => JValue.null
          | some e => evalToJson e),
        ("variants_generated", .num (r.variants_generated : ℚ)),
        ("cost_usd", .num r.cost_usd)]

/-- Embeds `WorkflowState.save`: the JSON document written to
`qa/workflow_state.json` (`asdict` order, rounds via `to_dict`). -/
def stateToJson (st : WorkflowState) : JValue :=
  .obj [("pack_name", .str st.pack_name), ("started_at", .str st.started_at),
        ("max_rounds", .num (st.max_rounds : ℚ)),
        ("quality_threshold", .num st.quality_threshold),
        ("rounds", .arr (st.rounds.map roundToJson)),
        ("completed", .bool st.completed),
        ("completion_reason", .str st.completion_reason)]

/-- Embeds `EvaluationScore(**s)` in `WorkflowState.load`: the `issues` field
defaults to `[]` when absent. -/
def scoreFromJson : JValue → Option EvaluationScore
  | .obj fs => do
      let dimension ← jGet fs "dimension" >>= jString?
      let score ← jGet fs "score" >>= jNum?
      let weight ← jGet fs "weight" >>= jNum?
      let justification ← jGet fs "justification" >>= jString?
      let issues ← match jGet fs "issues" with
        | none => some []
        | some (.arr xs) => mapOpt jString? xs
        | some _ => none
      some { dimension := dimension, score := score, weight := weight,
             justification := justification, issues := issues }
  | _ => none

/-- The `PackEvaluation` reconstruction block of `WorkflowState.load`
(all fields accessed with `[]`, i.e. required). -/
def evalFromJson : JValue → Option PackEvaluation
  | .obj fs => do
      let dims ← match jGet fs "dimension_scores" with
        | some (.arr xs) => mapOpt scoreFromJson xs
        | _ => none
      let pack_name ← jGet fs "pack_name" >>= jString?
      let overall ← jGet fs "overall_score" >>= jNum?
      let critical ← match jGet fs "critical_issues" with
        | some (.arr xs) => mapOpt jString? xs
        | _ => none
      let selected ← match jGet fs "selected_images" with
        | some (.obj kvs) => mapOpt jStrPair? kvs
        | _ => none
      let deltas ← match jGet fs "deltas" with
        | some (.arr xs) => mapOpt jString? xs
        | _ => none
      let acp ← jGet fs "automated_checks_passed" >>= jBool?
      some { pack_name := pack_name, overall_score := overall, dimension_scores := dims,
             critical_issues := critical, selected_images := selected, deltas := deltas,
             automated_checks_passed := acp }
  | _ => none

/-- The `RoundState` reconstruction of `WorkflowState.load`:
`r_data.get("evaluation")` with Python truthiness (`None` and the empty
dict decode to no evaluation), `variants_generated`/`cost_usd` with
`.get` defaults. -/
def roundFromJson : JValue → Option RoundState
  | .obj fs => do
      let ev ← match jGet fs "evaluation" with
        | none => some none
        | some v =>
            if jTruthy v then (evalFromJson v).map some
            else some none
      let round_num ← jGet fs "round_num" >>= jNat?
      let timestamp ← jGet fs "timestamp" >>= jString?
      let prompts ← match jGet fs "prompts_used" with
        | some (.obj kvs) => mapOpt jStrPair? kvs
        | _ => none
      let variants ← match jGet fs "variants_generated" with
        | none => some 0
        | some v => jNat? v
      let cost ← match jGet fs "cost_usd" with
        | none => some (0 : ℚ)
        | some v => jNum? v
      some { round_num := round_num, timestamp := timestamp, prompts_used := prompts,
             evaluation := ev, variants_generated := variants, cost_usd := cost }
  | _ => none

/-- Embeds `WorkflowState.load` applied to an already-parsed JSON document:
`rounds`/`quality_threshold`/`completed`/`completion_reason` use `.get`
defaults, the rest are required. -/
def stateFromJson : JValue → Option WorkflowState
  | .obj fs => do
      let rounds ← match jGet fs "rounds" with
        | none => some []
        | some (.arr xs) => mapOpt roundFromJson xs
        | some _ => none
      let pack_name ← jGet fs "pack_name" >>= jString?
      let started_at ← jGet fs "started_at" >>= jString?
      let max_rounds ← jGet fs "max_rounds" >>= jNat?
      let qt ← match jGet fs "quality_threshold" with
        | none => some (8.5 : ℚ)
        | some v => jNum? v
      let completed ← match jGet fs "completed" with
        | none => some false
        | some v => jBool? v
      let reason ← match jGet fs "completion_reason" with
        | none => some ""
        | some v => jString? v
      some { pack_name := pack_name, started_at := started_at, max_rounds := max_rounds,
             quality_threshold := qt, rounds := rounds, completed := completed,
             completion_reason := reason }
  | _ => none

lemma mapOpt_map {α β : Type} (g : α → β) (f : β → Option α)
    (h : ∀ a, f (g a) = some a) : ∀ l : List α, mapOpt f (l.map g) = some l := by
  intro l
  induction l with
  | nil => rfl
  | cons x xs ih =>
    show mapOpt f (g x :: xs.map g) = some (x :: xs)
    unfold mapOpt
    rw [h x, ih]

lemma jNat?_natCast (n : ℕ) : jNat? (JValue.num (n : ℚ)) = some n := by
  show (if ((n : ℚ)).den = 1 ∧ 0 ≤ ((n : ℚ)).num then some ((n : ℚ)).num.toNat else none)
    = some n
  rw [if_pos ⟨Rat.den_natCast n, by rw [Rat.num_natCast]; exact Int.natCast_nonneg n⟩]
  rw [Rat.num_natCast, Int.toNat_natCast]

lemma jStrPair?_mk (kv : String × String) : jStrPair? (kv.1, JValue.str kv.2) = some kv := rfl

lemma jTruthy_evalToJson (e : PackEvaluation) : jTruthy (evalToJson e) = true := rfl

lemma scoreFromJson_roundtrip (s : EvaluationScore) :
    scoreFromJson (scoreToJson s) = some s := by
  unfold scoreToJson scoreFromJson
  simp [jGet, jString?, jNum?, mapOpt_map JValue.str jString? (fun _ => rfl)]

lemma evalFromJson_roundtrip (e : PackEvaluation) :
    evalFromJson (evalToJson e) = some e := by
  obtain ⟨pn, os, ds, ci, si, de, acp⟩ := e
  simp [evalToJson, evalFromJson, jGet, jString?, jNum?, jBool?,
    mapOpt_map JValue.str jString? (fun _ => rfl),
    mapOpt_map scoreToJson scoreFromJson scoreFromJson_roundtrip,
    mapOpt_map (fun kv => (kv.1, JValue.str kv.2)) jStrPair? jStrPair?_mk]

lemma roundFromJson_roundtrip (r : RoundState) :
    roundFromJson (roundToJson r) = some r := by
  obtain ⟨rn, ts, pu, ev, vg, cu⟩ := r
  cases ev with
  | none =>
    simp [roundToJson, roundFromJson, jGet, jString?, jNum?, jNat?_natCast, jTruthy,
      mapOpt_map (fun kv => (kv.1, JValue.str kv.2)) jStrPair? jStrPair?_mk]
  | some e =>
    simp [roundToJson, roundFromJson, jGet, jString?, jNum?, jNat?_natCast,
      jTruthy_evalToJson, evalFromJson_roundtrip,
      mapOpt_map (fun kv => (kv.1, JValue.str kv.2)) jStrPair? jStrPair?_mk]

lemma stateFromJson_roundtrip (st : WorkflowState) :
    stateFromJson (stateToJson st) = some st := by
  obtain ⟨pn, sa, mr, qt, rounds, comp, cr⟩ := st
  simp [stateToJson, stateFromJson, jGet, jString?, jNum?, jBool?, jNat?_natCast,
    mapOpt_map roundToJson roundFromJson roundFromJson_roundtrip]

/-- C8: saving a `WorkflowState` and loading it back reconstructs a
field-for-field equal state (same round ordering, equal nested
`RoundState`/`PackEvaluation`/`EvaluationScore` values); consequently
loading a persisted state and immediately re-saving it reproduces the
persisted document exactly. -/
theorem C8_save_load_roundtrip (st : WorkflowState) :
    stateFromJson (stateToJson st) = some st
    ∧ Option.map stateToJson (stateFromJson (stateToJson st)) = some (stateToJson st) := by
  refine ⟨stateFromJson_roundtrip st, ?_⟩
  rw [stateFromJson_roundtrip st]
  rfl

/-! ### The critic evaluation path (`agents/critic.py`)

`evaluate_pack` runs the automated checks, calls the Vision collaborator
and parses its response with `parse_critic_response`; a `ValueError`
(unparseable JSON) is caught and answered with
`_create_fallback_evaluation`.  The collaborator response and its JSON
parse are external, so the parse outcome is a parameter (`none` models a
parse failure); `images_to_evaluate` is the screen-type grouping of the
final images (groups are non-empty by construction, so `paths[0]` is
modelled with `headD`). -/

/-- Embeds `critic._create_fallback_evaluation`. -/
def _create_fallback_evaluation (pack_name : String)
    (images_to_evaluate : List (String × List String))
    (automated_score : ℚ) (automated_issues critical_issues : List String) :
    PackEvaluation :=
  let selected_images := images_to_evaluate.map (fun g => (g.1, g.2.headD ""))
  { pack_name := pack_name
    overall_score := automated_score
    dimension_scores := [
      { dimension := "technical_quality", score := automated_score, weight := 1,
        justification := "Automated checks only (Vision model parse failed)",
        issues := automated_issues }]
    critical_issues := critical_issues
    selected_images := selected_images
    deltas := ["ERROR: Failed to parse Critic response, only automated checks applied"]
    automated_checks_passed := decide (automated_issues.length = 0) }

/-- One entry of the response's `dimension_scores`
(`critic._build_evaluation_from_response`): `issues` defaults to `[]`,
the rest are required. -/
def dimFromResponse : JValue → Option EvaluationScore
  | .obj fs => do
      let dimension ← jGet fs "dimension" >>= jString?
      let score ← jGet fs "score" >>= jNum?
      let weight ← jGet fs "weight" >>= jNum?
      let justification ← jGet fs "justification" >>= jString?
      let issues ← match jGet fs "issues" with
        | none => some []
        | some (.arr xs) => mapOpt jString? xs
        | some _ => none
      some { dimension := dimension, score := score, weight := weight,
             justification := justification, issues := issues }
  | _ => none

/-- Embeds `critic._build_evaluation_from_response`: all response fields are
read with `.get` defaults; critical issues from the response are appended
to the automated ones. -/
def _build_evaluation_from_response (pack_name : String) (parsed : JValue)
    (automated_score : ℚ) (automated_issues critical_issues : List String) :
    Option PackEvaluation :=
  match parsed with
  | .obj fs => do
      let dims ← match jGet fs "dimension_scores" with
        | none => some []
        | some (.arr xs) => mapOpt dimFromResponse xs
        | some _ => none
      let response_critical ← match jGet fs "critical_issues" with
        | none => some []
        | some (.arr xs) => mapOpt jString? xs
        | some _ => none
      let overall ← match jGet fs "overall_score" with
        | none => some automated_score
        | some v => jNum? v
      let selected ← match jGet fs "selected_images" with
        | none => some []
        | some (.obj kvs) => mapOpt jStrPair? kvs
        | some _ => none
      let deltas ← match jGet fs "deltas" with
        | none => some []
        | some (.arr xs) => mapOpt jString? xs
        | some _ => none
      some { pack_name := pack_name, overall_score := overall, dimension_scores := dims,
             critical_issues := critical_issues ++ response_critical,
             selected_images := selected, deltas := deltas,
             automated_checks_passed := decide (automated_issues.length = 0) }
  | _ => none

/-- The response-handling tail of `critic.evaluate_pack`: run the
automated checks, then either build the evaluation from the parsed
response or, when parsing raised `ValueError` (`parse_result = none`),
fall back to the automated-only evaluation instead of propagating. -/
def evaluate_pack_result (pack_name : String)
    (images_to_evaluate : List (String × List String))
    (p : PackDir) (parse_result : Option JValue) : Option PackEvaluation :=
  let automated := compute_automated_score p
  let critical_issues := check_critical_issues p
  match parse_result with
  | none => some (_create_fallback_evaluation pack_name images_to_evaluate
      automated.1 automated.2 critical_issues)
  | some parsed => _build_evaluation_from_response pack_name parsed
      automated.1 automated.2 critical_issues

/-- C9: when the critic response fails JSON parsing, `evaluate_pack`
returns (rather than raising) the fallback `PackEvaluation`: its
overall_score is the automated score, its dimension list is the single
`technical_quality` dimension at weight 1.0 carrying the automated
issues, and its critical_issues are exactly the automated
`check_critical_issues` result. -/
theorem C9_parse_failure_fallback (pack_name : String)
    (images : List (String × List String)) (p : PackDir) :
    evaluate_pack_result pack_name images p none
      = some (_create_fallback_evaluation pack_name images
          (compute_automated_score p).1 (compute_automated_score p).2
          (check_critical_issues p))
    ∧ (_create_fallback_evaluation pack_name images
        (compute_automated_score p).1 (compute_automated_score p).2
        (check_critical_issues p)).overall_score = (compute_automated_score p).1
    ∧ (_create_fallback_evaluation pack_name images
        (compute_automated_score p).1 (compute_automated_score p).2
        (check_critical_issues p)).dimension_scores
        = [{ dimension := "technical_quality", score := (compute_automated_score p).1,
             weight := 1,
             justification := "Automated checks only (Vision model parse failed)",
             issues := (compute_automated_score p).2 }]
    ∧ (_create_fallback_evaluation pack_name images
        (compute_automated_score p).1 (compute_automated_score p).2
        (check_critical_issues p)).critical_issues = check_critical_issues p :=
  ⟨rfl, rfl, rfl, rfl⟩

end StreamPack
